import Mathlib

/- Verification development for the offline Download Manager of the hymn
   mobile application (src/apps/mobile/src/screens/downloads/DownloadsScreen.tsx,
   lines 661-1169 of the packed file).

   Modelling conventions (shallow embedding):
   - The async TypeScript functions are modelled as pure Lean functions with
     explicit state passing.  The persistent key-value store (AsyncStorage) is
     modelled at the parsed-JSON level: the value under the key
     "downloaded_songs" is an optional list of records, the value under
     "download_settings" an optional (possibly partial) settings record.
     A JSON string round-trips to the same value, so this level is faithful.
   - Store reads are modelled as infallible: a throwing read of the manifest is
     caught in the source and yields the empty list, exactly what an absent key
     yields; a throwing read of the settings yields DEFAULT_SETTINGS, exactly
     what an absent key yields.  Store writes are fallible: the environment
     decides, per setItem invocation index, whether the write succeeds.
   - The hierarchical file store is a finite association list from path to the
     size of the stored file.  FileSystem.downloadAsync and the resumable
     download are modelled by environment functions from (url, destination) to
     either a transport error message or the size of the transferred file; on
     failure nothing is written (the source never records a failed transfer in
     downloadedFiles).  FileSystem.getInfoAsync is a lookup in the file map.
     FileSystem.deleteAsync with idempotent true is modelled as fallible per
     path (it does not fail on a missing file, but it can fail for other
     file-system reasons); a failed delete leaves the file map unchanged.
   - JavaScript truthiness is modelled explicitly: a missing or empty string is
     falsy, a missing or zero number is falsy.
   - Thrown exceptions that escape the public API are the Except.error case of
     the result; exceptions caught inside the source are not visible in the
     result type.  Exact wording of platform error messages (the TypeError from
     reading a property of null, the AsyncStorage write failure) is fixed by the
     model; only their distinctness from the messages built by the source
     matters.
   - The progress number of a callback event is a rational in [0, 1]. -/

namespace Hymn

/-- Declared per-artifact advisory sizes of a song (the optional field
    size of DownloadableSong).  The third kind is the sheet-music artifact;
    its source name ("notation") is renamed to nota throughout, Lean
    reserves that word. -/
structure SizeInfo where
  lyrics : Option Nat := none
  audio : Option Nat := none
  nota : Option Nat := none
deriving DecidableEq

/-- DownloadableSong: the input descriptor (DownloadsScreen.tsx 674-686). -/
structure DownloadableSong where
  id : String
  number : Int
  title : String
  lyricsUrl : Option String := none
  audioUrl : Option String := none
  notaUrl : Option String := none
  size : Option SizeInfo := none
deriving DecidableEq

/-- A per-artifact sub-record of a manifest entry: localUri and measured size. -/
structure ArtifactRecord where
  localUri : String
  size : Nat
deriving DecidableEq

/-- DownloadedSong: a persisted manifest entry (DownloadsScreen.tsx 688-706).
    The field nota is the source field for the sheet-music artifact. -/
structure DownloadedSong where
  id : String
  number : Int
  title : String
  downloadDate : String
  lyrics : Option ArtifactRecord := none
  audio : Option ArtifactRecord := none
  nota : Option ArtifactRecord := none
  totalSize : Nat
deriving DecidableEq

/-- Status of a progress event (DownloadsScreen.tsx 708-713). -/
inductive DlStatus where
  | pending
  | downloading
  | completed
  | failed
deriving DecidableEq

/-- DownloadProgress: one event delivered to the progress callback. -/
structure DownloadProgress where
  songId : String
  progress : Rat
  status : DlStatus
  error : Option String := none
deriving DecidableEq

/-- DownloadOptions (DownloadsScreen.tsx 715-719); the optional booleans are
    used truthily, so a plain Bool with default false is faithful.  The
    source name of includeNota is the include flag of the sheet-music kind. -/
structure DownloadOptions where
  includeAudio : Bool := false
  includeNota : Bool := false
  showNotification : Bool := false
deriving DecidableEq

/-- DownloadSettings, fully populated (DownloadsScreen.tsx 735-741).  The
    field downloadNotaByDefault is the default-include flag of the
    sheet-music kind. -/
structure DownloadSettings where
  maxStorageSize : Int
  autoDownloadOnWifi : Bool
  downloadAudioByDefault : Bool
  downloadNotaByDefault : Bool
  notifyOnComplete : Bool
deriving DecidableEq

/-- A possibly-incomplete settings object as it may sit in the store (the
    source parses arbitrary JSON here and uses the fields directly). -/
structure StoredSettings where
  maxStorageSize : Option Int := none
  autoDownloadOnWifi : Option Bool := none
  downloadAudioByDefault : Option Bool := none
  downloadNotaByDefault : Option Bool := none
  notifyOnComplete : Option Bool := none
deriving DecidableEq

/-- DEFAULT_SETTINGS (DownloadsScreen.tsx 743-749): 500 MiB quota. -/
def DEFAULT_SETTINGS : DownloadSettings :=
  { maxStorageSize := 500 * 1024 * 1024
    autoDownloadOnWifi := false
    downloadAudioByDefault := false
    downloadNotaByDefault := false
    notifyOnComplete := true }

/-- View of a fully populated settings object as a stored object (every field
    present). -/
def DownloadSettings.toStored (d : DownloadSettings) : StoredSettings :=
  { maxStorageSize := some d.maxStorageSize
    autoDownloadOnWifi := some d.autoDownloadOnWifi
    downloadAudioByDefault := some d.downloadAudioByDefault
    downloadNotaByDefault := some d.downloadNotaByDefault
    notifyOnComplete := some d.notifyOnComplete }

/-- FileSystem.documentDirectory, an opaque platform root; its value never
    matters, only that all artifact paths extend it. -/
def documentDirectory : String := "doc://"

def BASE_DIRECTORY : String := documentDirectory ++ "downloads/"

def LYRICS_DIRECTORY : String := BASE_DIRECTORY ++ "lyrics/"

def AUDIO_DIRECTORY : String := BASE_DIRECTORY ++ "audio/"

/-- The sheet-music subdirectory (source constant for the third kind). -/
def NOTA_DIRECTORY : String := BASE_DIRECTORY ++ "notation/"

/-- The file store: an association list from path to size of stored file. -/
abbrev FileMap := List (String × Nat)

def lookupFile : FileMap → String → Option Nat
  | [], _ => none
  | (q, n) :: rest, p => if q = p then some n else lookupFile rest p

def removeFile (fs : FileMap) (p : String) : FileMap :=
  fs.filter (fun e => !(e.1 == p))

/-- Writing a file replaces any previous content at that path. -/
def upsertFile (fs : FileMap) (p : String) (n : Nat) : FileMap :=
  removeFile fs p ++ [(p, n)]

/-- The mutable world the manager touches: the two AsyncStorage keys, the
    file store, the count of setItem invocations so far (indexing write
    fallibility in the environment) and the count of notification attempts. -/
structure State where
  manifest : Option (List DownloadedSong)
  settings : Option StoredSettings
  files : FileMap
  writeCount : Nat
  notifCount : Nat
deriving DecidableEq

/-- The external collaborators: network oracle, clock, the two transfer
    primitives, per-path delete fallibility, per-invocation write
    fallibility, notification-module availability, and the chunk reports the
    audio transport delivers to its progress listener. -/
structure Env where
  isConnected : Bool
  now : String
  transfer : String → String → Except String Nat
  transferAudio : String → String → Except String (Option Nat)
  audioChunks : List (Nat × Nat)
  deleteOk : String → Bool
  writeOk : Nat → Bool
  notifAvailable : Bool

/-- AsyncStorage.setItem on the manifest key: consumes one write-fallibility
    index; on failure the stored value is unchanged. -/
def trySetManifest (env : Env) (s : State) (l : List DownloadedSong) : Bool × State :=
  if env.writeOk s.writeCount then
    (true, { s with manifest := some l, writeCount := s.writeCount + 1 })
  else
    (false, { s with writeCount := s.writeCount + 1 })

/-- getDownloadedSongs (DownloadsScreen.tsx 801-809): parse the manifest key,
    absent key (or a throwing read) gives the empty list. -/
def getDownloadedSongs (s : State) : List DownloadedSong :=
  s.manifest.getD []

/-- isSongDownloaded (DownloadsScreen.tsx 812-820). -/
def isSongDownloaded (songId : String) (s : State) : Bool :=
  (getDownloadedSongs s).any (fun d => d.id == songId)

/-- getDownloadedSong (DownloadsScreen.tsx 823-831). -/
def getDownloadedSong (songId : String) (s : State) : Option DownloadedSong :=
  (getDownloadedSongs s).find? (fun d => d.id == songId)

/-- getDownloadSettings (DownloadsScreen.tsx 1073-1081): the stored value is
    returned exactly as stored; only an absent key (or throwing read) yields
    DEFAULT_SETTINGS.  No per-field merge happens. -/
def getDownloadSettings (s : State) : StoredSettings :=
  match s.settings with
  | some p => p
  | none => DEFAULT_SETTINGS.toStored

/-- getCurrentStorageUsage (DownloadsScreen.tsx 1097-1105). -/
def getCurrentStorageUsage (s : State) : Nat :=
  (getDownloadedSongs s).foldl (fun total d => total + d.totalSize) 0

/-- JavaScript truthiness of an optional number: absent or zero is falsy. -/
def natTruthy : Option Nat → Bool
  | none => false
  | some n => !(n == 0)

/-- JavaScript truthiness of an optional string: absent or empty is falsy. -/
def strTruthy : Option String → Bool
  | none => false
  | some u => !(u == "")

def songSizeLyrics (sg : DownloadableSong) : Option Nat := sg.size.bind SizeInfo.lyrics

def songSizeAudio (sg : DownloadableSong) : Option Nat := sg.size.bind SizeInfo.audio

def songSizeNota (sg : DownloadableSong) : Option Nat := sg.size.bind SizeInfo.nota

/-- calculateTotalSize (DownloadsScreen.tsx 1128-1147): advisory lyrics size
    always, advisory audio size when includeAudio, advisory sheet-music size
    when its include flag is set; each added only when truthy. -/
def calculateTotalSize (sg : DownloadableSong) (opts : DownloadOptions) : Nat :=
  let t0 : Nat := 0
  let t1 := if natTruthy (songSizeLyrics sg) then t0 + (songSizeLyrics sg).getD 0 else t0
  let t2 := if opts.includeAudio && natTruthy (songSizeAudio sg) then
      t1 + (songSizeAudio sg).getD 0 else t1
  let t3 := if opts.includeNota && natTruthy (songSizeNota sg) then
      t2 + (songSizeNota sg).getD 0 else t2
  t3

/-- The settings object downloadSong reads (DownloadsScreen.tsx 860-861):
    same expression as getDownloadSettings, inlined in the source. -/
def effectiveSettings (s : State) : StoredSettings :=
  match s.settings with
  | some p => p
  | none => DEFAULT_SETTINGS.toStored

/-- The admission comparison (DownloadsScreen.tsx 867): in JavaScript a
    comparison against an absent maxStorageSize field is a NaN comparison and
    is false, so an absent field admits everything. -/
def quotaExceeds (s : State) (sg : DownloadableSong) (opts : DownloadOptions) : Bool :=
  match (effectiveSettings s).maxStorageSize with
  | some m =>
      decide (((getCurrentStorageUsage s : Int) + (calculateTotalSize sg opts : Int)) > m)
  | none => false

/-- FileSystem.getInfoAsync with size true (the source maps a missing file,
    or a missing or zero size, to 0). -/
def statSize (s : State) (path : String) : Nat :=
  match lookupFile s.files path with
  | some n => n
  | none => 0

/-- url.split with a dot, then pop, with a falsy last component replaced by
    the default extension (DownloadsScreen.tsx 914 and 958). -/
def urlExt (url : String) (dfl : String) : String :=
  let e := (url.splitOn ".").getLastD ""
  if e = "" then dfl else e

/-- A path of the form dir ++ songId ++ sep ++ rest used for every artifact
    file of a song. -/
def artifactUri (dir sid rest : String) : String :=
  dir ++ sid ++ "_" ++ rest

/-- A path that lies in one of the three artifact subdirectories and carries
    the per-song filename stem of the given song id. -/
def isSongFile (sid p : String) : Prop :=
  ∃ rest, p = artifactUri LYRICS_DIRECTORY sid rest ∨
    p = artifactUri AUDIO_DIRECTORY sid rest ∨
    p = artifactUri NOTA_DIRECTORY sid rest

/-- The events delivered to the progress callback during one call. -/
abbrev Ev := List DownloadProgress

/-- The values the try block of downloadSong threads between artifact steps:
    the world state, the DownloadedSong record being built, the
    downloadedFiles list, and the events delivered so far. -/
structure Acc where
  s : State
  ds : DownloadedSong
  written : List String
  evs : Ev
deriving DecidableEq

/-- The lyrics block of downloadSong (DownloadsScreen.tsx 889-910): always
    attempted, but only when lyricsUrl is truthy; success pushes the file,
    measures it and accumulates; failure rethrows with a wrapped message. -/
def tryLyrics (env : Env) (sg : DownloadableSong) (a : Acc) : Except (String × Acc) Acc :=
  match sg.lyricsUrl with
  | none => .ok a
  | some url =>
    if url = "" then .ok a
    else
      match env.transfer url (artifactUri LYRICS_DIRECTORY sg.id "lyrics.txt") with
      | .error e => .error ("Failed to download lyrics: " ++ e, a)
      | .ok n =>
          let uri := artifactUri LYRICS_DIRECTORY sg.id "lyrics.txt"
          let s' : State := { a.s with files := upsertFile a.s.files uri n }
          let sz := statSize s' uri
          .ok { s := s'
                ds := { a.ds with lyrics := some ⟨uri, sz⟩, totalSize := a.ds.totalSize + sz }
                written := a.written ++ [uri]
                evs := a.evs }

/-- The fractional progress events the audio transport emits through the
    resumable download listener (DownloadsScreen.tsx 923-932): only when a
    callback is present and the expected total is positive. -/
def audioChunkEvents (env : Env) (cb : Bool) (sid : String) : Ev :=
  if cb then
    (env.audioChunks.filter (fun c => decide (0 < c.2))).map
      (fun c => ⟨sid, min ((c.1 : Rat) / (c.2 : Rat)) 1, .downloading, none⟩)
  else []

/-- The audio block of downloadSong (DownloadsScreen.tsx 912-954): attempted
    when includeAudio and a truthy audioUrl; a null result of the resumable
    download throws Download failed inside the block; all failures rethrow
    with a wrapped message.  The transport chunk events are delivered before
    the outcome of the transfer is known. -/
def tryAudio (env : Env) (cb : Bool) (sg : DownloadableSong) (opts : DownloadOptions)
    (a : Acc) : Except (String × Acc) Acc :=
  if opts.includeAudio then
    match sg.audioUrl with
    | none => .ok a
    | some url =>
      if url = "" then .ok a
      else
        match env.transferAudio url (artifactUri AUDIO_DIRECTORY sg.id ("audio." ++ urlExt url "mp3")) with
        | .error e => .error ("Failed to download audio: " ++ e,
            { a with evs := a.evs ++ audioChunkEvents env cb sg.id })
        | .ok none => .error ("Failed to download audio: Download failed",
            { a with evs := a.evs ++ audioChunkEvents env cb sg.id })
        | .ok (some n) =>
            let uri := artifactUri AUDIO_DIRECTORY sg.id ("audio." ++ urlExt url "mp3")
            let s' : State := { a.s with files := upsertFile a.s.files uri n }
            let sz := statSize s' uri
            .ok { s := s'
                  ds := { a.ds with audio := some ⟨uri, sz⟩, totalSize := a.ds.totalSize + sz }
                  written := a.written ++ [uri]
                  evs := a.evs ++ audioChunkEvents env cb sg.id }
  else .ok a

/-- The sheet-music block of downloadSong (DownloadsScreen.tsx 956-978):
    attempted when its include flag and a truthy url; failures rethrow with a
    wrapped message. -/
def tryNota (env : Env) (sg : DownloadableSong) (opts : DownloadOptions)
    (a : Acc) : Except (String × Acc) Acc :=
  if opts.includeNota then
    match sg.notaUrl with
    | none => .ok a
    | some url =>
      if url = "" then .ok a
      else
        match env.transfer url (artifactUri NOTA_DIRECTORY sg.id ("notation." ++ urlExt url "pdf")) with
        | .error e => .error ("Failed to download notation: " ++ e, a)
        | .ok n =>
            let uri := artifactUri NOTA_DIRECTORY sg.id ("notation." ++ urlExt url "pdf")
            let s' : State := { a.s with files := upsertFile a.s.files uri n }
            let sz := statSize s' uri
            .ok { s := s'
                  ds := { a.ds with nota := some ⟨uri, sz⟩, totalSize := a.ds.totalSize + sz }
                  written := a.written ++ [uri]
                  evs := a.evs }
  else .ok a

/-- The try block of downloadSong for a non-null song (DownloadsScreen.tsx
    842-1009): validation, connectivity, cache short-circuit, quota
    admission, the start event, the three artifact blocks, the manifest
    append, the optional notification (errors there are swallowed; the model
    counts attempts), and the terminal completed event.  An error result
    carries the message, the state at the failure point, downloadedFiles and
    the events delivered so far. -/
def downloadSongBody (env : Env) (cb : Bool) (sg : DownloadableSong)
    (opts : DownloadOptions) (s0 : State) :
    Except (String × State × List String × Ev) (Option DownloadedSong × State × Ev × List String) :=
  if sg.id == "" || sg.title == "" then .error ("Invalid song data", s0, [], [])
  else if !env.isConnected then .error ("No internet connection", s0, [], [])
  else if isSongDownloaded sg.id s0 then .ok (getDownloadedSong sg.id s0, s0, [], [])
  else if quotaExceeds s0 sg opts then .error ("Not enough storage space", s0, [], [])
  else
    match tryLyrics env sg
        ⟨s0,
          { id := sg.id, number := sg.number, title := sg.title,
            downloadDate := env.now, totalSize := 0 },
          [], if cb then [⟨sg.id, 0, .downloading, none⟩] else []⟩ with
    | .error (e, a) => .error (e, a.s, a.written, a.evs)
    | .ok a1 =>
      match tryAudio env cb sg opts a1 with
      | .error (e, a) => .error (e, a.s, a.written, a.evs)
      | .ok a2 =>
        match tryNota env sg opts a2 with
        | .error (e, a) => .error (e, a.s, a.written, a.evs)
        | .ok a3 =>
          match trySetManifest env a3.s (getDownloadedSongs a3.s ++ [a3.ds]) with
          | (true, s4) =>
              let s5 := if opts.showNotification && env.notifAvailable then
                  { s4 with notifCount := s4.notifCount + 1 } else s4
              .ok (some a3.ds, s5,
                a3.evs ++ (if cb then [⟨sg.id, 1, .completed, none⟩] else []),
                a3.written)
          | (false, s4) => .error ("AsyncStorage write failed", s4, a3.written, a3.evs)

/-- The cleanup loop of the catch block (DownloadsScreen.tsx 1014-1020):
    best-effort deletion of every file recorded in downloadedFiles; a failing
    delete is logged and skipped. -/
def runCleanup (env : Env) : List String → State → State
  | [], s => s
  | p :: rest, s =>
      runCleanup env rest
        (if env.deleteOk p then { s with files := removeFile s.files p } else s)

/-- downloadSong (DownloadsScreen.tsx 834-1034).  The result is Except.error
    exactly when an exception escapes to the caller: that happens only in the
    catch block, where the failed progress event reads song.id on the (then
    null) song while a callback is present.  Otherwise the result carries the
    returned value (the entry or null), the final state, the events delivered
    to the callback, and the final downloadedFiles list. -/
def downloadSong (env : Env) (cb : Bool) (song : Option DownloadableSong)
    (opts : DownloadOptions) (s0 : State) :
    Except (String × State) (Option DownloadedSong × State × Ev × List String) :=
  let body : Except (String × State × List String × Ev)
      (Option DownloadedSong × State × Ev × List String) :=
    match song with
    | none => .error ("Invalid song data", s0, [], [])
    | some sg => downloadSongBody env cb sg opts s0
  match body with
  | .ok r => .ok r
  | .error (e, s', written, evs) =>
    let s'' := runCleanup env written s'
    if cb then
      match song with
      | none => .error ("TypeError: cannot read id of null", s'')
      | some sg => .ok (none, s'', evs ++ [⟨sg.id, 0, .failed, some e⟩], written)
    else .ok (none, s'', evs, written)

/-- Deletion of one artifact file inside deleteSong: the deleteAsync call is
    not individually guarded in the source, so a failure escapes to the catch
    of deleteSong; the error payload is the state at the failure point. -/
def deleteArtifact (env : Env) (s : State) (rec : Option ArtifactRecord) : Except State State :=
  match rec with
  | none => .ok s
  | some r =>
      if env.deleteOk r.localUri then .ok { s with files := removeFile s.files r.localUri }
      else .error s

/-- deleteSong (DownloadsScreen.tsx 1037-1070): absent entry gives false;
    otherwise the three artifact files are deleted in order (an error there
    is caught by the surrounding handler, which returns false with the
    manifest untouched), then the entry is filtered out of the manifest and
    written back; the write failure is also caught into false. -/
def deleteSong (env : Env) (songId : String) (s : State) : Bool × State :=
  match getDownloadedSong songId s with
  | none => (false, s)
  | some d =>
    match deleteArtifact env s d.lyrics with
    | .error s1 => (false, s1)
    | .ok s1 =>
      match deleteArtifact env s1 d.audio with
      | .error s2 => (false, s2)
      | .ok s2 =>
        match deleteArtifact env s2 d.nota with
        | .error s3 => (false, s3)
        | .ok s3 =>
            trySetManifest env s3
              ((getDownloadedSongs s3).filter (fun sg => !(sg.id == songId)))

/-- clearAllDownloads (DownloadsScreen.tsx 1108-1125): deleteSong for every
    entry of the manifest snapshot (return values ignored), then the manifest
    is force-replaced by the empty list; only a failure of that final write
    reaches the catch and yields false. -/
def clearAllDownloads (env : Env) (s : State) : Bool × State :=
  let s1 := (getDownloadedSongs s).foldl (fun st sg => (deleteSong env sg.id st).2) s
  trySetManifest env s1 []

/-- updateDownloadSettings (DownloadsScreen.tsx 1084-1094): shallow-merge of
    the given full update into the current settings, then persisted. -/
def updateDownloadSettings (env : Env) (upd : StoredSettings) (s : State) : Bool × State :=
  let cur := getDownloadSettings s
  let merged : StoredSettings :=
    { maxStorageSize := upd.maxStorageSize.orElse (fun _ => cur.maxStorageSize)
      autoDownloadOnWifi := upd.autoDownloadOnWifi.orElse (fun _ => cur.autoDownloadOnWifi)
      downloadAudioByDefault := upd.downloadAudioByDefault.orElse (fun _ => cur.downloadAudioByDefault)
      downloadNotaByDefault := upd.downloadNotaByDefault.orElse (fun _ => cur.downloadNotaByDefault)
      notifyOnComplete := upd.notifyOnComplete.orElse (fun _ => cur.notifyOnComplete) }
  if env.writeOk s.writeCount then
    (true, { s with settings := some merged, writeCount := s.writeCount + 1 })
  else
    (false, { s with settings := s.settings, writeCount := s.writeCount + 1 })

/-- A concrete environment: connected, transfers of lyrics and sheet music
    succeed with 5 bytes, the audio transfer fails with a transport error,
    deletes and writes succeed, no notification module. -/
def exEnv : Env where
  isConnected := true
  now := "2024-01-01T00:00:00.000Z"
  transfer := fun _ _ => .ok 5
  transferAudio := fun _ _ => .error "network request failed"
  audioChunks := []
  deleteOk := fun _ => true
  writeOk := fun _ => true
  notifAvailable := false

/-- The same environment with every file deletion failing. -/
def failDelEnv : Env :=
  { exEnv with deleteOk := fun _ => false }

/-- The same environment with the network disconnected. -/
def offlineEnv : Env :=
  { exEnv with isConnected := false }

/-- The empty initial state: nothing stored, no files. -/
def exState : State where
  manifest := none
  settings := none
  files := []
  writeCount := 0
  notifCount := 0

/-- A song with a lyrics url and an audio url. -/
def exSong : DownloadableSong where
  id := "s1"
  number := 12
  title := "Amazing"
  lyricsUrl := some "https://host/l.txt"
  audioUrl := some "https://host/a.mp3"

/-- A song whose advisory lyrics size exceeds the default quota. -/
def bigSong : DownloadableSong where
  id := "q"
  number := 1
  title := "Big"
  size := some { lyrics := some 600000000 }

/-- A song with no artifact urls at all. -/
def bareSong : DownloadableSong where
  id := "w"
  number := 3
  title := "Tiny"

/-- A song with an empty id (falsy in JavaScript). -/
def noIdSong : DownloadableSong where
  id := ""
  number := 0
  title := "t"

/-- A manifest entry whose only artifact is a 3-byte lyrics file at path p. -/
def entryA : DownloadedSong where
  id := "a"
  number := 1
  title := "x"
  downloadDate := "d"
  lyrics := some ⟨"p", 3⟩
  totalSize := 3

/-- A state holding entryA in the manifest and its file in the file store. -/
def stateA : State where
  manifest := some [entryA]
  settings := none
  files := [("p", 3)]
  writeCount := 0
  notifCount := 0

/-- A manifest entry with no artifacts for the cache-hit scenario. -/
def entryB : DownloadedSong where
  id := "s2"
  number := 2
  title := "Cached"
  downloadDate := "d2"
  totalSize := 0

/-- A state holding entryB. -/
def stateB : State where
  manifest := some [entryB]
  settings := none
  files := []
  writeCount := 0
  notifCount := 0

/-- The descriptor matching entryB. -/
def songB : DownloadableSong where
  id := "s2"
  number := 2
  title := "Cached"

/-- The manifest entry created by a downloadSong run that transfers no
    artifact: no sub-records, totalSize 0. -/
def emptyEntry (sg : DownloadableSong) (now : String) : DownloadedSong where
  id := sg.id
  number := sg.number
  title := sg.title
  downloadDate := now
  totalSize := 0

/-- A state whose stored settings object is entirely empty. -/
def emptySettingsState : State where
  manifest := none
  settings := some {}
  files := []
  writeCount := 0
  notifCount := 0

/-- Measured size of an optional artifact sub-record. -/
def artSize : Option ArtifactRecord → Nat
  | none => 0
  | some r => r.size

/-- The totalSize invariant of one manifest entry: the sum of the measured
    sizes of the present artifacts. -/
def sizeInvariant (d : DownloadedSong) : Prop :=
  d.totalSize = artSize d.lyrics + artSize d.audio + artSize d.nota

/-- The totalSize invariant over a whole manifest. -/
def manifestSizeInvariant (s : State) : Prop :=
  ∀ d ∈ getDownloadedSongs s, sizeInvariant d

/-- Settings merge written from the words of the specification (section 4.2:
    get merges any stored partial with hardcoded defaults, field by field);
    compared below against the getDownloadSettings of the source. -/
def mergeWithDefaults (p : StoredSettings) : StoredSettings :=
  { maxStorageSize := some (p.maxStorageSize.getD DEFAULT_SETTINGS.maxStorageSize)
    autoDownloadOnWifi := some (p.autoDownloadOnWifi.getD DEFAULT_SETTINGS.autoDownloadOnWifi)
    downloadAudioByDefault :=
      some (p.downloadAudioByDefault.getD DEFAULT_SETTINGS.downloadAudioByDefault)
    downloadNotaByDefault :=
      some (p.downloadNotaByDefault.getD DEFAULT_SETTINGS.downloadNotaByDefault)
    notifyOnComplete := some (p.notifyOnComplete.getD DEFAULT_SETTINGS.notifyOnComplete) }

/-- getDownloadSettings as the claim describes it: the stored partial merged
    with the defaults field by field. -/
def getDownloadSettingsClaim (s : State) : StoredSettings :=
  match s.settings with
  | some p => mergeWithDefaults p
  | none => DEFAULT_SETTINGS.toStored

lemma lookupFile_removeFile (fs : FileMap) (q p : String) :
    lookupFile (removeFile fs q) p = if q = p then none else lookupFile fs p := by
  induction fs with
  | nil =>
      simp only [removeFile, List.filter_nil, lookupFile]
      split <;> rfl
  | cons e rest ih =>
      simp only [removeFile, List.filter_cons] at ih ⊢
      by_cases he : e.1 = q
      · rw [if_neg (by simp [he]), ih]
        by_cases hqp : q = p
        · simp [hqp]
        · simp only [if_neg hqp, lookupFile]
          rw [if_neg (by rw [he]; exact hqp)]
      · rw [if_pos (by simp [he])]
        simp only [lookupFile]
        by_cases hep : e.1 = p
        · have hqp : ¬ q = p := fun hq => he (by rw [hep, hq])
          simp [hep, hqp]
        · rw [if_neg hep, ih]
          by_cases hqp : q = p
          · simp [hqp]
          · simp only [if_neg hqp, lookupFile, if_neg hep]

lemma runCleanup_manifest (env : Env) (w : List String) :
    ∀ s : State, (runCleanup env w s).manifest = s.manifest ∧
      (runCleanup env w s).settings = s.settings ∧
      (runCleanup env w s).writeCount = s.writeCount ∧
      (runCleanup env w s).notifCount = s.notifCount := by
  induction w with
  | nil => intro s; exact ⟨rfl, rfl, rfl, rfl⟩
  | cons p rest ih =>
      intro s
      simp only [runCleanup]
      rcases ih (if env.deleteOk p then { s with files := removeFile s.files p } else s) with
        ⟨h1, h2, h3, h4⟩
      refine ⟨?_, ?_, ?_, ?_⟩ <;>
        · first
          | (rw [h1]; split <;> rfl)
          | (rw [h2]; split <;> rfl)
          | (rw [h3]; split <;> rfl)
          | (rw [h4]; split <;> rfl)

lemma runCleanup_lookup_none (env : Env) (w : List String) :
    ∀ s : State, ∀ p, lookupFile s.files p = none →
      lookupFile (runCleanup env w s).files p = none := by
  induction w with
  | nil => intro s p h; exact h
  | cons q rest ih =>
      intro s p h
      simp only [runCleanup]
      apply ih
      by_cases hq : env.deleteOk q
      · simp only [hq, if_true]
        rw [lookupFile_removeFile]
        split <;> simp [h]
      · simpa [hq] using h

lemma runCleanup_deletes_one (env : Env) (w : List String) :
    ∀ s : State, ∀ p ∈ w, env.deleteOk p = true →
      lookupFile (runCleanup env w s).files p = none := by
  induction w with
  | nil => intro s p hp; cases hp
  | cons q rest ih =>
      intro s p hp hdp
      simp only [runCleanup]
      rcases List.mem_cons.mp hp with rfl | hmem
      · apply runCleanup_lookup_none
        simp only [hdp, if_true]
        rw [lookupFile_removeFile]
        simp
      · exact ih _ p hmem hdp

lemma trySetManifest_true_spec {env : Env} {s : State} {l : List DownloadedSong} {s' : State}
    (h : trySetManifest env s l = (true, s')) :
    env.writeOk s.writeCount = true ∧
    s' = { s with manifest := some l, writeCount := s.writeCount + 1 } := by
  unfold trySetManifest at h
  by_cases hw : env.writeOk s.writeCount
  · simp only [hw, if_true, Prod.mk.injEq, true_and] at h
    exact ⟨hw, h.symm⟩
  · simp [hw] at h

lemma trySetManifest_false_spec {env : Env} {s : State} {l : List DownloadedSong} {s' : State}
    (h : trySetManifest env s l = (false, s')) :
    env.writeOk s.writeCount = false ∧
    s' = { s with writeCount := s.writeCount + 1 } := by
  unfold trySetManifest at h
  by_cases hw : env.writeOk s.writeCount
  · simp [hw] at h
  · simp only [hw, if_false, Prod.mk.injEq, true_and, Bool.false_eq_true] at h
    exact ⟨by simp [hw], h.symm⟩

lemma find_of_isSongDownloaded {sid : String} {s : State}
    (h : isSongDownloaded sid s = true) : ∃ d, getDownloadedSong sid s = some d := by
  unfold isSongDownloaded at h
  unfold getDownloadedSong
  rcases List.any_eq_true.mp h with ⟨d, hd, hp⟩
  have : (List.find? (fun d => d.id == sid) (getDownloadedSongs s)).isSome := by
    rw [List.find?_isSome]
    exact ⟨d, hd, hp⟩
  rcases Option.isSome_iff_exists.mp this with ⟨d', hd'⟩
  exact ⟨d', hd'⟩

lemma audioChunkEvents_error_none (env : Env) (cb : Bool) (sid : String) :
    ∀ ev ∈ audioChunkEvents env cb sid, ev.error = none := by
  intro ev hev
  unfold audioChunkEvents at hev
  cases cb
  · simp at hev
  · simp only [if_true] at hev
    rcases List.mem_map.mp hev with ⟨c, _, rfl⟩
    rfl

lemma tryLyrics_skip {env : Env} {sg : DownloadableSong} {a : Acc}
    (h : strTruthy sg.lyricsUrl = false) : tryLyrics env sg a = .ok a := by
  unfold tryLyrics
  cases hu : sg.lyricsUrl with
  | none => rfl
  | some url =>
      rw [hu] at h
      unfold strTruthy at h
      simp only [Bool.not_eq_false', beq_iff_eq] at h
      simp [h]

lemma tryAudio_skip {env : Env} {cb : Bool} {sg : DownloadableSong} {opts : DownloadOptions}
    {a : Acc} (h : opts.includeAudio = false ∨ strTruthy sg.audioUrl = false) :
    tryAudio env cb sg opts a = .ok a := by
  unfold tryAudio
  rcases h with h | h
  · simp [h]
  · cases hi : opts.includeAudio
    · simp
    · simp only [if_true]
      cases hu : sg.audioUrl with
      | none => rfl
      | some url =>
          rw [hu] at h
          unfold strTruthy at h
          simp only [Bool.not_eq_false', beq_iff_eq] at h
          simp [h]

lemma tryNota_skip {env : Env} {sg : DownloadableSong} {opts : DownloadOptions}
    {a : Acc} (h : opts.includeNota = false ∨ strTruthy sg.notaUrl = false) :
    tryNota env sg opts a = .ok a := by
  unfold tryNota
  rcases h with h | h
  · simp [h]
  · cases hi : opts.includeNota
    · simp
    · simp only [if_true]
      cases hu : sg.notaUrl with
      | none => rfl
      | some url =>
          rw [hu] at h
          unfold strTruthy at h
          simp only [Bool.not_eq_false', beq_iff_eq] at h
          simp [h]

lemma tryLyrics_ok_spec {env : Env} {sg : DownloadableSong} {a a' : Acc}
    (h : tryLyrics env sg a = .ok a') :
    a'.s.manifest = a.s.manifest ∧ a'.s.settings = a.s.settings ∧
    a'.s.writeCount = a.s.writeCount ∧ a'.s.notifCount = a.s.notifCount ∧
    (a'.written = a.written ∨ ∃ u, a'.written = a.written ++ [u] ∧ isSongFile sg.id u) ∧
    a'.evs = a.evs ∧
    a'.ds.id = a.ds.id ∧ a'.ds.audio = a.ds.audio ∧ a'.ds.nota = a.ds.nota ∧
    (a.ds.lyrics = none → sizeInvariant a.ds → sizeInvariant a'.ds) := by
  unfold tryLyrics at h
  split at h
  · simp only [Except.ok.injEq] at h
    subst h
    exact ⟨rfl, rfl, rfl, rfl, Or.inl rfl, rfl, rfl, rfl, rfl, fun _ hi => hi⟩
  · split at h
    · simp only [Except.ok.injEq] at h
      subst h
      exact ⟨rfl, rfl, rfl, rfl, Or.inl rfl, rfl, rfl, rfl, rfl, fun _ hi => hi⟩
    · split at h
      · simp at h
      · simp only [Except.ok.injEq] at h
        subst h
        refine ⟨rfl, rfl, rfl, rfl, ?_, rfl, rfl, rfl, rfl, ?_⟩
        · exact Or.inr ⟨_, rfl, ⟨"lyrics.txt", Or.inl rfl⟩⟩
        · intro hl hi
          unfold sizeInvariant at hi ⊢
          rw [hl] at hi
          simp only [artSize] at hi ⊢
          omega

lemma tryLyrics_error_spec {env : Env} {sg : DownloadableSong} {a ae : Acc} {e : String}
    (h : tryLyrics env sg a = .error (e, ae)) :
    ae = a ∧ ∃ m, e = "Failed to download lyrics: " ++ m := by
  unfold tryLyrics at h
  split at h
  · simp at h
  · split at h
    · simp at h
    · split at h
      · simp only [Except.error.injEq, Prod.mk.injEq] at h
        exact ⟨h.2.symm, _, h.1.symm⟩
      · simp at h

lemma tryAudio_ok_spec {env : Env} {cb : Bool} {sg : DownloadableSong}
    {opts : DownloadOptions} {a a' : Acc}
    (h : tryAudio env cb sg opts a = .ok a') :
    a'.s.manifest = a.s.manifest ∧ a'.s.settings = a.s.settings ∧
    a'.s.writeCount = a.s.writeCount ∧ a'.s.notifCount = a.s.notifCount ∧
    (a'.written = a.written ∨ ∃ u, a'.written = a.written ++ [u] ∧ isSongFile sg.id u) ∧
    (∃ ex, a'.evs = a.evs ++ ex ∧ ∀ ev ∈ ex, ev.error = none) ∧
    a'.ds.id = a.ds.id ∧ a'.ds.lyrics = a.ds.lyrics ∧ a'.ds.nota = a.ds.nota ∧
    (a.ds.audio = none → sizeInvariant a.ds → sizeInvariant a'.ds) := by
  unfold tryAudio at h
  split at h
  · split at h
    · simp only [Except.ok.injEq] at h
      subst h
      exact ⟨rfl, rfl, rfl, rfl, Or.inl rfl, ⟨[], by simp, by simp⟩, rfl, rfl, rfl,
        fun _ hi => hi⟩
    · split at h
      · simp only [Except.ok.injEq] at h
        subst h
        exact ⟨rfl, rfl, rfl, rfl, Or.inl rfl, ⟨[], by simp, by simp⟩, rfl, rfl, rfl,
          fun _ hi => hi⟩
      · split at h
        · simp at h
        · simp at h
        · simp only [Except.ok.injEq] at h
          subst h
          refine ⟨rfl, rfl, rfl, rfl, ?_, ?_, rfl, rfl, rfl, ?_⟩
          · exact Or.inr ⟨_, rfl, ⟨_, Or.inr (Or.inl rfl)⟩⟩
          · exact ⟨audioChunkEvents env cb sg.id, rfl, audioChunkEvents_error_none env cb sg.id⟩
          · intro hl hi
            unfold sizeInvariant at hi ⊢
            rw [hl] at hi
            simp only [artSize] at hi ⊢
            omega
  · simp only [Except.ok.injEq] at h
    subst h
    exact ⟨rfl, rfl, rfl, rfl, Or.inl rfl, ⟨[], by simp, by simp⟩, rfl, rfl, rfl,
      fun _ hi => hi⟩

lemma tryAudio_error_spec {env : Env} {cb : Bool} {sg : DownloadableSong}
    {opts : DownloadOptions} {a ae : Acc} {e : String}
    (h : tryAudio env cb sg opts a = .error (e, ae)) :
    ae.s = a.s ∧ ae.ds = a.ds ∧ ae.written = a.written ∧
    (∃ ex, ae.evs = a.evs ++ ex ∧ ∀ ev ∈ ex, ev.error = none) ∧
    ∃ m, e = "Failed to download audio: " ++ m := by
  unfold tryAudio at h
  split at h
  · split at h
    · simp at h
    · split at h
      · simp at h
      · split at h
        · simp only [Except.error.injEq, Prod.mk.injEq] at h
          obtain ⟨he, ha⟩ := h
          subst ha
          exact ⟨rfl, rfl, rfl,
            ⟨audioChunkEvents env cb sg.id, rfl, audioChunkEvents_error_none env cb sg.id⟩,
            _, he.symm⟩
        · simp only [Except.error.injEq, Prod.mk.injEq] at h
          obtain ⟨he, ha⟩ := h
          subst ha
          exact ⟨rfl, rfl, rfl,
            ⟨audioChunkEvents env cb sg.id, rfl, audioChunkEvents_error_none env cb sg.id⟩,
            "Download failed", he.symm⟩
        · simp at h
  · simp at h

lemma tryNota_ok_spec {env : Env} {sg : DownloadableSong}
    {opts : DownloadOptions} {a a' : Acc}
    (h : tryNota env sg opts a = .ok a') :
    a'.s.manifest = a.s.manifest ∧ a'.s.settings = a.s.settings ∧
    a'.s.writeCount = a.s.writeCount ∧ a'.s.notifCount = a.s.notifCount ∧
    (a'.written = a.written ∨ ∃ u, a'.written = a.written ++ [u] ∧ isSongFile sg.id u) ∧
    a'.evs = a.evs ∧
    a'.ds.id = a.ds.id ∧ a'.ds.lyrics = a.ds.lyrics ∧ a'.ds.audio = a.ds.audio ∧
    (a.ds.nota = none → sizeInvariant a.ds → sizeInvariant a'.ds) := by
  unfold tryNota at h
  split at h
  · split at h
    · simp only [Except.ok.injEq] at h
      subst h
      exact ⟨rfl, rfl, rfl, rfl, Or.inl rfl, rfl, rfl, rfl, rfl, fun _ hi => hi⟩
    · split at h
      · simp only [Except.ok.injEq] at h
        subst h
        exact ⟨rfl, rfl, rfl, rfl, Or.inl rfl, rfl, rfl, rfl, rfl, fun _ hi => hi⟩
      · split at h
        · simp at h
        · simp only [Except.ok.injEq] at h
          subst h
          refine ⟨rfl, rfl, rfl, rfl, ?_, rfl, rfl, rfl, rfl, ?_⟩
          · exact Or.inr ⟨_, rfl, ⟨_, Or.inr (Or.inr rfl)⟩⟩
          · intro hl hi
            unfold sizeInvariant at hi ⊢
            rw [hl] at hi
            simp only [artSize] at hi ⊢
            omega
  · simp only [Except.ok.injEq] at h
    subst h
    exact ⟨rfl, rfl, rfl, rfl, Or.inl rfl, rfl, rfl, rfl, rfl, fun _ hi => hi⟩

lemma written_chain {w1 w2 : List String} {sid : String}
    (h1 : ∀ p ∈ w1, isSongFile sid p)
    (h2 : w2 = w1 ∨ ∃ u, w2 = w1 ++ [u] ∧ isSongFile sid u) :
    ∀ p ∈ w2, isSongFile sid p := by
  rcases h2 with rfl | ⟨u, rfl, hu⟩
  · exact h1
  · intro p hp
    rcases List.mem_append.mp hp with hp | hp
    · exact h1 p hp
    · rw [List.mem_singleton.mp hp]
      exact hu

lemma evs_chain {e1 e2 : Ev}
    (h1 : ∀ ev ∈ e1, ev.error = none)
    (h2 : ∃ ex, e2 = e1 ++ ex ∧ ∀ ev ∈ ex, ev.error = none) :
    ∀ ev ∈ e2, ev.error = none := by
  rcases h2 with ⟨ex, rfl, hex⟩
  intro ev hev
  rcases List.mem_append.mp hev with hv | hv
  · exact h1 ev hv
  · exact hex ev hv

lemma tryNota_error_spec {env : Env} {sg : DownloadableSong}
    {opts : DownloadOptions} {a ae : Acc} {e : String}
    (h : tryNota env sg opts a = .error (e, ae)) :
    ae = a ∧ ∃ m, e = "Failed to download notation: " ++ m := by
  unfold tryNota at h
  split at h
  · split at h
    · simp at h
    · split at h
      · simp at h
      · split at h
        · simp only [Except.error.injEq, Prod.mk.injEq] at h
          exact ⟨h.2.symm, _, h.1.symm⟩
        · simp at h
  · simp at h

lemma getDownloadedSongs_eq_of_manifest {s t : State} (h : s.manifest = t.manifest) :
    getDownloadedSongs s = getDownloadedSongs t := by
  unfold getDownloadedSongs
  rw [h]

lemma append_ne_quota (pre : String) (hlen : 24 < pre.length) (m : String) :
    pre ++ m ≠ "Not enough storage space" := by
  intro h
  have hl := congrArg String.length h
  rw [String.length_append] at hl
  have h24 : ("Not enough storage space").length = 24 := by decide
  omega

lemma body_error_spec {env : Env} {cb : Bool} {sg : DownloadableSong} {opts : DownloadOptions}
    {s0 : State} {e : String} {s' : State} {w : List String} {evs : Ev}
    (h : downloadSongBody env cb sg opts s0 = .error (e, s', w, evs)) :
    s'.manifest = s0.manifest ∧ s'.settings = s0.settings ∧
    (∀ p ∈ w, isSongFile sg.id p) ∧
    (∀ ev ∈ evs, ev.error = none) ∧
    (e = "Not enough storage space" →
      isSongDownloaded sg.id s0 = false ∧ quotaExceeds s0 sg opts = true) := by
  unfold downloadSongBody at h
  split at h
  · simp only [Except.error.injEq, Prod.mk.injEq] at h
    obtain ⟨he, h2, h3, h4⟩ := h
    subst h2; subst h3; subst h4
    exact ⟨rfl, rfl, by simp, by simp, fun hx => absurd (he.trans hx) (by decide)⟩
  · split at h
    · simp only [Except.error.injEq, Prod.mk.injEq] at h
      obtain ⟨he, h2, h3, h4⟩ := h
      subst h2; subst h3; subst h4
      exact ⟨rfl, rfl, by simp, by simp, fun hx => absurd (he.trans hx) (by decide)⟩
    · split at h
      · simp at h
      next hpres =>
        split at h
        next hquota =>
          simp only [Except.error.injEq, Prod.mk.injEq] at h
          obtain ⟨-, h2, h3, h4⟩ := h
          subst h2; subst h3; subst h4
          refine ⟨rfl, rfl, by simp, by simp, fun _ => ⟨?_, hquota⟩⟩
          cases hb : isSongDownloaded sg.id s0
          · rfl
          · exact absurd hb hpres
        · split at h
          next e1 a1 heqL =>
            simp only [Except.error.injEq, Prod.mk.injEq] at h
            obtain ⟨he, h2, h3, h4⟩ := h
            obtain ⟨hae, m, hm⟩ := tryLyrics_error_spec heqL
            subst hae
            subst h2; subst h3; subst h4
            refine ⟨rfl, rfl, by simp, ?_, ?_⟩
            · cases cb <;> simp
            · intro hx
              exact absurd ((hm.symm.trans he).trans hx)
                (append_ne_quota _ (by decide) m)
          next a1 heqL =>
            obtain ⟨hm1, hs1, -, -, hw1, he1, -⟩ := tryLyrics_ok_spec heqL
            have hwa1 : ∀ p ∈ a1.written, isSongFile sg.id p :=
              written_chain (by simp) hw1
            have hea1 : ∀ ev ∈ a1.evs, ev.error = none := by
              rw [he1]
              cases cb <;> simp
            split at h
            next e1 ae heqA =>
              simp only [Except.error.injEq, Prod.mk.injEq] at h
              obtain ⟨he, h2, h3, h4⟩ := h
              obtain ⟨has, -, haw, hav, m, hm⟩ := tryAudio_error_spec heqA
              subst h2; subst h3; subst h4
              refine ⟨by rw [has, hm1], by rw [has, hs1], ?_, ?_, ?_⟩
              · rw [haw]
                exact hwa1
              · exact evs_chain hea1 hav
              · intro hx
                exact absurd ((hm.symm.trans he).trans hx)
                  (append_ne_quota _ (by decide) m)
            next a2 heqA =>
              obtain ⟨hm2, hs2, -, -, hw2, he2, -⟩ := tryAudio_ok_spec heqA
              have hwa2 : ∀ p ∈ a2.written, isSongFile sg.id p := written_chain hwa1 hw2
              have hea2 : ∀ ev ∈ a2.evs, ev.error = none := evs_chain hea1 he2
              split at h
              next e1 ae heqN =>
                simp only [Except.error.injEq, Prod.mk.injEq] at h
                obtain ⟨he, h2, h3, h4⟩ := h
                obtain ⟨hae, m, hm⟩ := tryNota_error_spec heqN
                subst hae
                subst h2; subst h3; subst h4
                refine ⟨by rw [hm2, hm1], by rw [hs2, hs1], hwa2, hea2, ?_⟩
                intro hx
                exact absurd ((hm.symm.trans he).trans hx)
                  (append_ne_quota _ (by decide) m)
              next a3 heqN =>
                obtain ⟨hm3, hs3, -, -, hw3, he3, -⟩ := tryNota_ok_spec heqN
                have hwa3 : ∀ p ∈ a3.written, isSongFile sg.id p := written_chain hwa2 hw3
                have hea3 : ∀ ev ∈ a3.evs, ev.error = none := by
                  rw [he3]
                  exact hea2
                split at h
                next s4 heqW =>
                  simp at h
                next s4 heqW =>
                  simp only [Except.error.injEq, Prod.mk.injEq] at h
                  obtain ⟨he, h2, h3, h4⟩ := h
                  obtain ⟨-, hs4⟩ := trySetManifest_false_spec heqW
                  subst h2; subst h3; subst h4
                  subst hs4
                  refine ⟨by rw [hm3, hm2, hm1], by rw [hs3, hs2, hs1], hwa3, hea3, ?_⟩
                  intro hx
                  exact absurd (he.trans hx) (by decide)

lemma body_ok_spec {env : Env} {cb : Bool} {sg : DownloadableSong} {opts : DownloadOptions}
    {s0 : State} {r : Option DownloadedSong} {s' : State} {evs : Ev} {w : List String}
    (h : downloadSongBody env cb sg opts s0 = .ok (r, s', evs, w)) :
    (isSongDownloaded sg.id s0 = true ∧ r = getDownloadedSong sg.id s0 ∧ s' = s0 ∧
      evs = [] ∧ w = []) ∨
    (isSongDownloaded sg.id s0 = false ∧
      ∃ d, r = some d ∧ d.id = sg.id ∧ sizeInvariant d ∧
        s'.manifest = some (getDownloadedSongs s0 ++ [d]) ∧ s'.settings = s0.settings) := by
  unfold downloadSongBody at h
  split at h
  · simp at h
  · split at h
    · simp at h
    · split at h
      next hpres =>
        left
        simp only [Except.ok.injEq, Prod.mk.injEq] at h
        obtain ⟨h1, h2, h3, h4⟩ := h
        exact ⟨hpres, h1.symm, h2.symm, h3.symm, h4.symm⟩
      next hpres =>
        split at h
        · simp at h
        · right
          have hp : isSongDownloaded sg.id s0 = false := by
            cases hb : isSongDownloaded sg.id s0
            · rfl
            · exact absurd hb hpres
          refine ⟨hp, ?_⟩
          split at h
          · simp at h
          next a1 heqL =>
            obtain ⟨hm1, hs1, -, -, -, -, hid1, hau1, hno1, hin1⟩ := tryLyrics_ok_spec heqL
            split at h
            · simp at h
            next a2 heqA =>
              obtain ⟨hm2, hs2, -, -, -, -, hid2, hly2, hno2, hin2⟩ := tryAudio_ok_spec heqA
              split at h
              · simp at h
              next a3 heqN =>
                obtain ⟨hm3, hs3, -, -, -, -, hid3, hly3, hau3, hin3⟩ := tryNota_ok_spec heqN
                split at h
                next s4 heqW =>
                  simp only [Except.ok.injEq, Prod.mk.injEq] at h
                  obtain ⟨h1, h2, h3, h4⟩ := h
                  obtain ⟨-, hs4⟩ := trySetManifest_true_spec heqW
                  refine ⟨a3.ds, h1.symm, ?_, ?_, ?_, ?_⟩
                  · rw [hid3, hid2, hid1]
                  · apply hin3
                    · rw [hno2, hno1]
                    · apply hin2
                      · rw [hau1]
                      · apply hin1
                        · rfl
                        · unfold sizeInvariant artSize
                          simp
                  · have hms : s'.manifest = s4.manifest := by
                      rw [← h2]
                      split <;> rfl
                    rw [hms, hs4]
                    have : getDownloadedSongs a3.s = getDownloadedSongs s0 := by
                      apply getDownloadedSongs_eq_of_manifest
                      rw [hm3, hm2, hm1]
                    rw [this]
                  · have hss : s'.settings = s4.settings := by
                      rw [← h2]
                      split <;> rfl
                    rw [hss, hs4]
                    show a3.s.settings = s0.settings
                    rw [hs3, hs2, hs1]
                next s4 heqW =>
                  simp at h

lemma downloadSong_some_to_body {env : Env} {cb : Bool} {sg : DownloadableSong}
    {opts : DownloadOptions} {s0 : State} {d : DownloadedSong} {s1 : State} {evs : Ev}
    {w : List String}
    (h : downloadSong env cb (some sg) opts s0 = .ok (some d, s1, evs, w)) :
    downloadSongBody env cb sg opts s0 = .ok (some d, s1, evs, w) := by
  simp only [downloadSong] at h
  cases hb : downloadSongBody env cb sg opts s0 with
  | ok rr =>
      rw [hb] at h
      simp only [Except.ok.injEq] at h
      rw [← h]
  | error err =>
      obtain ⟨e, s', w', evs'⟩ := err
      rw [hb] at h
      cases cb <;> simp at h

lemma downloadSong_none_spec {env : Env} {cb : Bool} {sg : DownloadableSong}
    {opts : DownloadOptions} {s0 : State} {s'' : State} {evs' : Ev} {w : List String}
    (h : downloadSong env cb (some sg) opts s0 = .ok (none, s'', evs', w)) :
    ∃ e s' evs, downloadSongBody env cb sg opts s0 = .error (e, s', w, evs) ∧
      s'' = runCleanup env w s' ∧
      evs' = evs ++ (if cb then [⟨sg.id, 0, .failed, some e⟩] else []) := by
  simp only [downloadSong] at h
  cases hb : downloadSongBody env cb sg opts s0 with
  | ok rr =>
      rw [hb] at h
      simp only [Except.ok.injEq] at h
      rcases body_ok_spec hb with ⟨hp, hr, -, -, -⟩ | ⟨-, d, hr, -⟩
      · rcases find_of_isSongDownloaded hp with ⟨dd, hdd⟩
        rw [h, hdd] at hr
        simp at hr
      · rw [h] at hr
        simp at hr
  | error err =>
      obtain ⟨e, s', w', evs0⟩ := err
      rw [hb] at h
      cases cb
      · simp only [Bool.false_eq_true, if_false, Except.ok.injEq, Prod.mk.injEq] at h
        obtain ⟨-, h2, h3, h4⟩ := h
        subst h4
        exact ⟨e, s', evs0, rfl, h2.symm, by rw [← h3]; simp⟩
      · simp only [if_true, Except.ok.injEq, Prod.mk.injEq] at h
        obtain ⟨-, h2, h3, h4⟩ := h
        subst h4
        exact ⟨e, s', evs0, rfl, h2.symm, by rw [← h3]; simp⟩

lemma downloadSong_invalid {env : Env} {cb : Bool} {sg : DownloadableSong}
    {opts : DownloadOptions} {s0 : State}
    (h : sg.id = "" ∨ sg.title = "") :
    downloadSong env cb (some sg) opts s0 =
      .ok (none, s0,
        (if cb then [⟨sg.id, 0, .failed, some "Invalid song data"⟩] else []), []) := by
  unfold downloadSong downloadSongBody
  rcases h with h | h <;>
    · simp only [h]
      cases cb <;> simp [runCleanup]

lemma downloadSong_offline {env : Env} {cb : Bool} {sg : DownloadableSong}
    {opts : DownloadOptions} {s0 : State}
    (hid : ¬ sg.id = "") (hti : ¬ sg.title = "") (hconn : env.isConnected = false) :
    downloadSong env cb (some sg) opts s0 =
      .ok (none, s0,
        (if cb then [⟨sg.id, 0, .failed, some "No internet connection"⟩] else []), []) := by
  unfold downloadSong downloadSongBody
  simp only [hconn, hid, hti]
  cases cb <;> simp [runCleanup, hid, hti]

lemma downloadSong_cacheHit {env : Env} {cb : Bool} {sg : DownloadableSong}
    {opts : DownloadOptions} {s0 : State}
    (hid : ¬ sg.id = "") (hti : ¬ sg.title = "") (hconn : env.isConnected = true)
    (hpres : isSongDownloaded sg.id s0 = true) :
    downloadSong env cb (some sg) opts s0 =
      .ok (getDownloadedSong sg.id s0, s0, [], []) := by
  unfold downloadSong downloadSongBody
  simp [hconn, hid, hti, hpres]

lemma downloadSong_quotaStop {env : Env} {cb : Bool} {sg : DownloadableSong}
    {opts : DownloadOptions} {s0 : State}
    (hid : ¬ sg.id = "") (hti : ¬ sg.title = "") (hconn : env.isConnected = true)
    (hpres : isSongDownloaded sg.id s0 = false)
    (hq : quotaExceeds s0 sg opts = true) :
    downloadSong env cb (some sg) opts s0 =
      .ok (none, s0,
        (if cb then [⟨sg.id, 0, .failed, some "Not enough storage space"⟩] else []), []) := by
  unfold downloadSong downloadSongBody
  simp only [hconn, hid, hti, hpres, hq]
  cases cb <;> simp [runCleanup, hid, hti]

lemma find?_append_none {α : Type} {p : α → Bool} {l1 l2 : List α}
    (h : l1.find? p = none) : (l1 ++ l2).find? p = l2.find? p := by
  induction l1 with
  | nil => simp
  | cons x rest ih =>
      cases hx : p x
      · have hx' : ¬ p x = true := by simp [hx]
        rw [List.find?_cons_of_neg _ hx'] at h
        rw [List.cons_append, List.find?_cons_of_neg _ hx']
        exact ih h
      · rw [List.find?_cons_of_pos _ hx] at h
        simp at h

lemma manifestSizeInvariant_of_eq {s t : State} (h : s.manifest = t.manifest)
    (hw : manifestSizeInvariant t) : manifestSizeInvariant s := by
  intro d hd
  apply hw
  unfold getDownloadedSongs at hd ⊢
  rw [← h]
  exact hd

lemma calculateTotalSize_eq (sg : DownloadableSong) (opts : DownloadOptions) :
    calculateTotalSize sg opts =
      (songSizeLyrics sg).getD 0 +
        (if opts.includeAudio = true then (songSizeAudio sg).getD 0 else 0) +
        (if opts.includeNota = true then (songSizeNota sg).getD 0 else 0) := by
  unfold calculateTotalSize
  cases ha : opts.includeAudio <;> cases hn : opts.includeNota <;>
    cases hl : songSizeLyrics sg <;> cases hA : songSizeAudio sg <;>
      cases hN : songSizeNota sg <;>
        simp [natTruthy] <;> (try split_ifs) <;> simp_all

lemma deleteArtifact_ok_spec {env : Env} {s s' : State} {r : Option ArtifactRecord}
    (h : deleteArtifact env s r = .ok s') :
    s'.manifest = s.manifest ∧ s'.settings = s.settings ∧
    s'.writeCount = s.writeCount := by
  unfold deleteArtifact at h
  split at h
  · simp only [Except.ok.injEq] at h
    subst h
    exact ⟨rfl, rfl, rfl⟩
  · split at h
    · simp only [Except.ok.injEq] at h
      subst h
      exact ⟨rfl, rfl, rfl⟩
    · simp at h

lemma deleteArtifact_error_spec {env : Env} {s s' : State} {r : Option ArtifactRecord}
    (h : deleteArtifact env s r = .error s') : s' = s := by
  unfold deleteArtifact at h
  split at h
  · simp at h
  · split at h
    · simp at h
    · simp only [Except.error.injEq] at h
      exact h.symm

lemma deleteArtifact_ok_of {env : Env} {s : State} {r : Option ArtifactRecord}
    (h : ∀ a, r = some a → env.deleteOk a.localUri = true) :
    ∃ s', deleteArtifact env s r = .ok s' := by
  cases r with
  | none => exact ⟨s, rfl⟩
  | some a =>
      refine ⟨{ s with files := removeFile s.files a.localUri }, ?_⟩
      unfold deleteArtifact
      simp [h a rfl]

lemma deleteSong_manifest (env : Env) (songId : String) (s : State) :
    (deleteSong env songId s).2.manifest = s.manifest ∨
    (deleteSong env songId s).2.manifest =
      some ((getDownloadedSongs s).filter (fun sg => !(sg.id == songId))) := by
  unfold deleteSong
  split
  · left
    rfl
  next d hfound =>
    split
    next s1 h1 =>
      left
      rw [deleteArtifact_error_spec h1]
    next s1 h1 =>
      obtain ⟨hm1, -, -⟩ := deleteArtifact_ok_spec h1
      split
      next s2 h2 =>
        left
        rw [deleteArtifact_error_spec h2, hm1]
      next s2 h2 =>
        obtain ⟨hm2, -, -⟩ := deleteArtifact_ok_spec h2
        split
        next s3 h3 =>
          left
          rw [deleteArtifact_error_spec h3, hm2, hm1]
        next s3 h3 =>
          obtain ⟨hm3, -, -⟩ := deleteArtifact_ok_spec h3
          have hgs : getDownloadedSongs s3 = getDownloadedSongs s := by
            apply getDownloadedSongs_eq_of_manifest
            rw [hm3, hm2, hm1]
          cases hw : trySetManifest env s3
              ((getDownloadedSongs s3).filter (fun sg => !(sg.id == songId))) with
          | mk b s4 =>
            cases b
            · obtain ⟨-, hs4⟩ := trySetManifest_false_spec hw
              left
              subst hs4
              show s3.manifest = s.manifest
              rw [hm3, hm2, hm1]
            · obtain ⟨-, hs4⟩ := trySetManifest_true_spec hw
              right
              subst hs4
              show some _ = some _
              rw [hgs]

lemma deleteSong_wf {env : Env} {songId : String} {s : State}
    (hw : manifestSizeInvariant s) :
    manifestSizeInvariant (deleteSong env songId s).2 := by
  rcases deleteSong_manifest env songId s with h | h
  · exact manifestSizeInvariant_of_eq h hw
  · intro d hd
    unfold getDownloadedSongs at hd
    rw [h] at hd
    simp only [Option.getD_some] at hd
    exact hw d (List.mem_filter.mp hd).1

lemma foldl_deleteSong_wf (env : Env) (l : List DownloadedSong) :
    ∀ s : State, manifestSizeInvariant s →
      manifestSizeInvariant (l.foldl (fun st sg => (deleteSong env sg.id st).2) s) := by
  induction l with
  | nil => intro s hw; exact hw
  | cons x rest ih =>
      intro s hw
      rw [List.foldl_cons]
      exact ih _ (deleteSong_wf hw)

/-- Claim C7, counterexample: with an entirely empty settings object stored,
    getDownloadSettings returns that empty object as-is; it does not fill the
    absent maxStorageSize with the default 500 MiB, so it differs from the
    merge-with-defaults reading of the claim. -/
theorem getDownloadSettings_cex :
    getDownloadSettings emptySettingsState ≠ getDownloadSettingsClaim emptySettingsState ∧
    (getDownloadSettings emptySettingsState).maxStorageSize = none ∧
    (getDownloadSettingsClaim emptySettingsState).maxStorageSize =
      some (500 * 1024 * 1024) := by
  exact ⟨by decide, rfl, rfl⟩

/-- Claim C7 (amended): getDownloadSettings returns the full hardcoded
    defaults when nothing is stored, and otherwise returns the stored
    settings object exactly as stored, with no per-field defaulting. -/
theorem getDownloadSettings_asStored (s : State) :
    (s.settings = none → getDownloadSettings s = DEFAULT_SETTINGS.toStored) ∧
    (∀ p, s.settings = some p → getDownloadSettings s = p) := by
  constructor
  · intro h
    unfold getDownloadSettings
    rw [h]
  · intro p h
    unfold getDownloadSettings
    rw [h]

/-- Witness for the amended claim C7 at a concrete state with no stored
    settings. -/
theorem getDownloadSettings_asStored_witness :
    getDownloadSettings exState = DEFAULT_SETTINGS.toStored :=
  (getDownloadSettings_asStored exState).1 rfl

/-- Claim C9 (code bug): with a null song and a progress callback provided,
    downloadSong does not return null; the catch block reads song.id on the
    null song to build the failed progress event, and the resulting TypeError
    escapes to the caller (modelled as the Except.error case). -/
theorem downloadSong_nullSong_throws :
    downloadSong exEnv true none {} exState =
      .error ("TypeError: cannot read id of null", exState) := by
  rfl

/-- Claim C8: the preconditions of downloadSong are checked in a fixed order
    with a hard stop each: a falsy id or title fails with the invalid-input
    error regardless of everything else; then a disconnected network fails
    with the offline error; then a present id short-circuits to the cache
    hit; last, quota admission fails with the storage error.  So an input
    violating several preconditions reports the earliest violated one. -/
theorem downloadSong_precedence (env : Env) (cb : Bool) (sg : DownloadableSong)
    (opts : DownloadOptions) (s0 : State) :
    ((sg.id = "" ∨ sg.title = "") →
      downloadSong env cb (some sg) opts s0 =
        .ok (none, s0,
          (if cb then [⟨sg.id, 0, .failed, some "Invalid song data"⟩] else []), [])) ∧
    (¬ sg.id = "" → ¬ sg.title = "" → env.isConnected = false →
      downloadSong env cb (some sg) opts s0 =
        .ok (none, s0,
          (if cb then [⟨sg.id, 0, .failed, some "No internet connection"⟩] else []), [])) ∧
    (¬ sg.id = "" → ¬ sg.title = "" → env.isConnected = true →
      isSongDownloaded sg.id s0 = true →
      downloadSong env cb (some sg) opts s0 =
        .ok (getDownloadedSong sg.id s0, s0, [], [])) ∧
    (¬ sg.id = "" → ¬ sg.title = "" → env.isConnected = true →
      isSongDownloaded sg.id s0 = false → quotaExceeds s0 sg opts = true →
      downloadSong env cb (some sg) opts s0 =
        .ok (none, s0,
          (if cb then [⟨sg.id, 0, .failed, some "Not enough storage space"⟩] else []), [])) :=
  ⟨fun h => downloadSong_invalid h,
   fun h1 h2 h3 => downloadSong_offline h1 h2 h3,
   fun h1 h2 h3 h4 => downloadSong_cacheHit h1 h2 h3 h4,
   fun h1 h2 h3 h4 h5 => downloadSong_quotaStop h1 h2 h3 h4 h5⟩

/-- Witness for claim C8: a song with an empty id, called while offline with
    an exceeding advisory size, reports the invalid-input error, the earliest
    violated precondition. -/
theorem downloadSong_precedence_witness :
    downloadSong offlineEnv true (some noIdSong) {} exState =
      .ok (none, exState, [⟨"", 0, .failed, some "Invalid song data"⟩], []) :=
  (downloadSong_precedence offlineEnv true noIdSong {} exState).1 (Or.inl rfl)

/-- Claim C6: clearAllDownloads calls deleteSong sequentially on every
    manifest entry, then force-replaces the manifest with the empty list; its
    result is exactly the success of that final manifest write (false only if
    that write fails), and after a true return the manifest list is empty and
    the storage usage is zero. -/
theorem clearAllDownloads_spec (env : Env) (s : State) :
    ((clearAllDownloads env s).1 =
      env.writeOk ((getDownloadedSongs s).foldl
        (fun st sg => (deleteSong env sg.id st).2) s).writeCount) ∧
    ((clearAllDownloads env s).1 = true →
      getDownloadedSongs (clearAllDownloads env s).2 = [] ∧
      getCurrentStorageUsage (clearAllDownloads env s).2 = 0) := by
  have hdef : clearAllDownloads env s =
      trySetManifest env ((getDownloadedSongs s).foldl
        (fun st sg => (deleteSong env sg.id st).2) s) [] := rfl
  rw [hdef]
  cases hres : trySetManifest env ((getDownloadedSongs s).foldl
      (fun st sg => (deleteSong env sg.id st).2) s) [] with
  | mk b s4 =>
    cases b
    · obtain ⟨hwk, -⟩ := trySetManifest_false_spec hres
      exact ⟨by rw [hwk], by intro h; exact absurd h (by simp)⟩
    · obtain ⟨hwk, hs4⟩ := trySetManifest_true_spec hres
      refine ⟨by rw [hwk], fun _ => ?_⟩
      subst hs4
      exact ⟨rfl, rfl⟩

/-- Witness for claim C6 at a concrete state holding one downloaded song. -/
theorem clearAllDownloads_spec_witness :
    getDownloadedSongs (clearAllDownloads exEnv stateA).2 = [] ∧
    getCurrentStorageUsage (clearAllDownloads exEnv stateA).2 = 0 :=
  (clearAllDownloads_spec exEnv stateA).2 (by rfl)

/-- Claim C3: for a valid song while connected, when a manifest with at most
    one entry per id is in place and a first downloadSong call returns an
    entry, a second identical call is a pure cache hit: it returns the same
    entry, changes nothing (same state, no events, no files written), and the
    manifest holds exactly one entry for that id. -/
theorem downloadSong_idempotent {env : Env} {cb : Bool} {sg : DownloadableSong}
    {opts : DownloadOptions} {s0 : State} {d : DownloadedSong} {s1 : State} {evs : Ev}
    {w : List String}
    (hid : ¬ sg.id = "") (hti : ¬ sg.title = "") (hconn : env.isConnected = true)
    (huniq : ((getDownloadedSongs s0).filter (fun x => x.id == sg.id)).length ≤ 1)
    (h1 : downloadSong env cb (some sg) opts s0 = .ok (some d, s1, evs, w)) :
    downloadSong env cb (some sg) opts s1 = .ok (some d, s1, [], []) ∧
    ((getDownloadedSongs s1).filter (fun x => x.id == sg.id)).length = 1 := by
  have hb := downloadSong_some_to_body h1
  rcases body_ok_spec hb with ⟨hp, hr, hse, -, -⟩ | ⟨hp, d', hr, hdid, -, hman, -⟩
  · have hfind : getDownloadedSong sg.id s0 = some d := hr.symm
    constructor
    · rw [hse, downloadSong_cacheHit hid hti hconn hp, hfind]
    · rw [hse]
      refine le_antisymm huniq ?_
      have hfind' : (getDownloadedSongs s0).find? (fun x => x.id == sg.id) = some d := hfind
      have hpd := List.find?_some hfind'
      have hmemfil : d ∈ (getDownloadedSongs s0).filter (fun x => x.id == sg.id) := by
        rw [List.mem_filter]
        exact ⟨List.mem_of_find?_eq_some hfind', hpd⟩
      have hpos : 0 < ((getDownloadedSongs s0).filter (fun x => x.id == sg.id)).length :=
        List.length_pos.mpr (List.ne_nil_of_mem hmemfil)
      omega
  · have hdd : d = d' := Option.some.inj hr
    rw [← hdd] at hdid hman
    unfold isSongDownloaded at hp
    have hnotin := List.any_eq_false.mp hp
    have hnone : (getDownloadedSongs s0).find? (fun x => x.id == sg.id) = none :=
      List.find?_eq_none.mpr hnotin
    have hgs1 : getDownloadedSongs s1 = getDownloadedSongs s0 ++ [d] := by
      unfold getDownloadedSongs
      rw [hman]
      rfl
    have hfind1 : getDownloadedSong sg.id s1 = some d := by
      unfold getDownloadedSong
      rw [hgs1, find?_append_none hnone,
        List.find?_cons_of_pos _ (by simp [hdid])]
    have hpres1 : isSongDownloaded sg.id s1 = true := by
      unfold isSongDownloaded
      rw [hgs1, List.any_append]
      simp [hdid]
    constructor
    · rw [downloadSong_cacheHit hid hti hconn hpres1, hfind1]
    · rw [hgs1, List.filter_append, List.filter_eq_nil.mpr hnotin]
      simp [hdid]

/-- Witness for claim C3: the cache-hit scenario on a state already holding
    the entry. -/
theorem downloadSong_idempotent_witness :
    downloadSong exEnv false (some songB) {} stateB = .ok (some entryB, stateB, [], []) ∧
    ((getDownloadedSongs stateB).filter (fun x => x.id == songB.id)).length = 1 :=
  @downloadSong_idempotent exEnv false songB {} stateB entryB stateB [] []
    (by decide) (by decide) rfl (by decide) (by rfl)

/-- Claim C2: with the earlier preconditions passed and a stored (or default)
    maxStorageSize, the candidate size is the advisory lyrics size plus the
    advisory audio size when includeAudio plus the advisory sheet-music size
    when its include flag is set; if usage plus candidate exceeds the quota,
    downloadSong stops with the storage error, returns null and changes
    nothing; otherwise no outcome of the call carries the storage error. -/
theorem downloadSong_quotaAdmission {env : Env} {cb : Bool} {sg : DownloadableSong}
    {opts : DownloadOptions} {s0 : State} {m : Int}
    (hid : ¬ sg.id = "") (hti : ¬ sg.title = "") (hconn : env.isConnected = true)
    (hpres : isSongDownloaded sg.id s0 = false)
    (hms : (effectiveSettings s0).maxStorageSize = some m) :
    (calculateTotalSize sg opts =
      (songSizeLyrics sg).getD 0 +
        (if opts.includeAudio = true then (songSizeAudio sg).getD 0 else 0) +
        (if opts.includeNota = true then (songSizeNota sg).getD 0 else 0)) ∧
    ((getCurrentStorageUsage s0 : Int) + (calculateTotalSize sg opts : Int) > m →
      downloadSong env cb (some sg) opts s0 =
        .ok (none, s0,
          (if cb then [⟨sg.id, 0, .failed, some "Not enough storage space"⟩] else []), [])) ∧
    ((getCurrentStorageUsage s0 : Int) + (calculateTotalSize sg opts : Int) ≤ m →
      ∀ s' evs w, downloadSong env cb (some sg) opts s0 = .ok (none, s', evs, w) →
        ∀ ev ∈ evs, ev.error ≠ some "Not enough storage space") := by
  refine ⟨calculateTotalSize_eq sg opts, ?_, ?_⟩
  · intro hgt
    apply downloadSong_quotaStop hid hti hconn hpres
    unfold quotaExceeds
    rw [hms]
    exact decide_eq_true hgt
  · intro hle s' evs w hok ev hev
    obtain ⟨e, sE, evs0, hb, -, hevs⟩ := downloadSong_none_spec hok
    obtain ⟨-, -, -, he0, hquo⟩ := body_error_spec hb
    subst hevs
    rcases List.mem_append.mp hev with hv | hv
    · rw [he0 ev hv]
      simp
    · cases cb
      · simp at hv
      · simp only [if_true, List.mem_singleton] at hv
        subst hv
        intro hc
        simp only [Option.some.injEq] at hc
        obtain ⟨-, hq⟩ := hquo hc
        unfold quotaExceeds at hq
        rw [hms] at hq
        have := of_decide_eq_true hq
        omega

/-- Witness for claim C2: the default quota with a 600 MB advisory lyrics
    size is rejected with the storage error and no state change. -/
theorem downloadSong_quotaAdmission_witness :
    downloadSong exEnv true (some bigSong) {} exState =
      .ok (none, exState, [⟨"q", 0, .failed, some "Not enough storage space"⟩], []) :=
  (@downloadSong_quotaAdmission exEnv true bigSong {} exState (500 * 1024 * 1024)
    (by decide) (by decide) rfl rfl rfl).2.1 (by decide)

/-- Claim C10: a valid, connected, absent, quota-admitted song with a falsy
    lyricsUrl, audio not requested or absent, sheet music not requested or
    absent, and a succeeding manifest write: downloadSong transfers nothing
    (no file written, downloadedFiles empty), appends an entry with no
    artifact sub-records and totalSize 0 to the manifest, emits only the
    start and terminal completed events, and returns that entry. -/
theorem downloadSong_emptySuccess {env : Env} {cb : Bool} {sg : DownloadableSong}
    {opts : DownloadOptions} {s0 : State}
    (hid : ¬ sg.id = "") (hti : ¬ sg.title = "") (hconn : env.isConnected = true)
    (hpres : isSongDownloaded sg.id s0 = false)
    (hq : quotaExceeds s0 sg opts = false)
    (hly : strTruthy sg.lyricsUrl = false)
    (hau : opts.includeAudio = false ∨ strTruthy sg.audioUrl = false)
    (hno : opts.includeNota = false ∨ strTruthy sg.notaUrl = false)
    (hw : env.writeOk s0.writeCount = true) :
    downloadSong env cb (some sg) opts s0 =
      .ok (some (emptyEntry sg env.now),
        { s0 with
            manifest := some (getDownloadedSongs s0 ++ [emptyEntry sg env.now])
            writeCount := s0.writeCount + 1
            notifCount := if opts.showNotification && env.notifAvailable then
              s0.notifCount + 1 else s0.notifCount },
        (if cb then [⟨sg.id, 0, .downloading, none⟩, ⟨sg.id, 1, .completed, none⟩] else []),
        []) := by
  unfold downloadSong downloadSongBody
  simp only [hconn, hpres, hq, tryLyrics_skip hly, tryAudio_skip hau, tryNota_skip hno]
  unfold trySetManifest
  simp only [hw, if_true]
  cases cb <;> simp [hid, hti, emptyEntry] <;> split <;> rfl

/-- Witness for claim C10: a song with no urls downloads successfully with
    an empty entry. -/
theorem downloadSong_emptySuccess_witness :
    downloadSong exEnv true (some bareSong) {} exState =
      .ok (some (emptyEntry bareSong "2024-01-01T00:00:00.000Z"),
        { manifest := some [emptyEntry bareSong "2024-01-01T00:00:00.000Z"]
          settings := none
          files := []
          writeCount := 1
          notifCount := 0 },
        [⟨"w", 0, .downloading, none⟩, ⟨"w", 1, .completed, none⟩], []) :=
  downloadSong_emptySuccess (by decide) (by decide) rfl rfl rfl rfl
    (Or.inl rfl) (Or.inl rfl) rfl

/-- Claim C1, counterexample: the audio transfer fails after the lyrics file
    was written, yet with the best-effort cleanup delete failing, the call
    returns null while the lyrics file of the song is still present in the
    lyrics subdirectory — the claim stated unconditional cleanup
    completeness. -/
theorem downloadSong_allOrNothing_cex :
    failDelEnv.transferAudio "https://host/a.mp3"
      (artifactUri AUDIO_DIRECTORY "s1" "audio.mp3") = .error "network request failed" ∧
    downloadSong failDelEnv true (some exSong) { includeAudio := true } exState =
      .ok (none,
        { manifest := none
          settings := none
          files := [("doc://downloads/lyrics/s1_lyrics.txt", 5)]
          writeCount := 0
          notifCount := 0 },
        [⟨"s1", 0, .downloading, none⟩,
         ⟨"s1", 0, .failed, some "Failed to download audio: network request failed"⟩],
        ["doc://downloads/lyrics/s1_lyrics.txt"]) ∧
    lookupFile [("doc://downloads/lyrics/s1_lyrics.txt", 5)]
      "doc://downloads/lyrics/s1_lyrics.txt" = some 5 ∧
    isSongFile "s1" "doc://downloads/lyrics/s1_lyrics.txt" :=
  ⟨rfl, by rfl, rfl, ⟨"lyrics.txt", Or.inl rfl⟩⟩

/-- Claim C1 (amended): whenever downloadSong on a valid song returns null
    after passing validation (in particular whenever a requested artifact
    transfer fails), the manifest key is not mutated (so no entry appears for
    a song that was absent), every file recorded in downloadedFiles lies in
    an artifact subdirectory under the stem of the song and — provided its
    own best-effort cleanup delete succeeds — is deleted, and the callback,
    when provided, receives a terminal failed event with an error message.
    Only the per-file deletion carries the cleanup proviso; the manifest,
    presence and terminal-event conclusions are unconditional. -/
theorem downloadSong_allOrNothing {env : Env} {cb : Bool} {sg : DownloadableSong}
    {opts : DownloadOptions} {s0 s1 : State} {evs : Ev} {w : List String}
    (hnull : downloadSong env cb (some sg) opts s0 = .ok (none, s1, evs, w)) :
    s1.manifest = s0.manifest ∧
    (isSongDownloaded sg.id s0 = false → isSongDownloaded sg.id s1 = false) ∧
    (∀ p ∈ w, isSongFile sg.id p ∧
      (env.deleteOk p = true → lookupFile s1.files p = none)) ∧
    (cb = true → ∃ e, evs.getLast? = some ⟨sg.id, 0, .failed, some e⟩) := by
  obtain ⟨e, s', evs0, hb, hs1, hevs⟩ := downloadSong_none_spec hnull
  obtain ⟨hm, -, hwf, -, -⟩ := body_error_spec hb
  subst hs1
  have hcm := (runCleanup_manifest env w s').1
  refine ⟨by rw [hcm, hm], ?_, ?_, ?_⟩
  · intro h0
    unfold isSongDownloaded at h0 ⊢
    rw [getDownloadedSongs_eq_of_manifest
      (show (runCleanup env w s').manifest = s0.manifest by rw [hcm, hm])]
    exact h0
  · intro p hp
    exact ⟨hwf p hp, fun hdp => runCleanup_deletes_one env w s' p hp hdp⟩
  · intro hcb
    subst hcb
    rw [hevs]
    exact ⟨e, by simp⟩

/-- Witness for the amended claim C1: the same failing audio transfer with a
    succeeding cleanup deletes the written lyrics file and appends the
    terminal failed event. -/
theorem downloadSong_allOrNothing_witness :
    exState.manifest = exState.manifest ∧
    (isSongDownloaded "s1" exState = false → isSongDownloaded "s1" exState = false) ∧
    (∀ p ∈ ["doc://downloads/lyrics/s1_lyrics.txt"],
      isSongFile "s1" p ∧
        (exEnv.deleteOk p = true → lookupFile exState.files p = none)) ∧
    (true = true → ∃ e,
      ([⟨"s1", 0, DlStatus.downloading, none⟩,
        ⟨"s1", 0, DlStatus.failed,
          some "Failed to download audio: network request failed"⟩] : Ev).getLast? =
        some ⟨"s1", 0, .failed, some e⟩) :=
  @downloadSong_allOrNothing exEnv true exSong { includeAudio := true } exState exState
    [⟨"s1", 0, .downloading, none⟩,
     ⟨"s1", 0, .failed, some "Failed to download audio: network request failed"⟩]
    ["doc://downloads/lyrics/s1_lyrics.txt"]
    (by rfl)

/-- Claim C4: the totalSize invariant (totalSize equals the sum of the
    measured sizes of the present artifact sub-records) holds for every
    manifest entry after any outcome of downloadSong, deleteSong and
    clearAllDownloads, provided it held before. -/
theorem totalSize_invariant (env : Env) (cb : Bool) (song : Option DownloadableSong)
    (opts : DownloadOptions) (s0 : State) (songId : String)
    (hwf : manifestSizeInvariant s0) :
    (∀ r s' evs w, downloadSong env cb song opts s0 = .ok (r, s', evs, w) →
      manifestSizeInvariant s') ∧
    (∀ e s', downloadSong env cb song opts s0 = .error (e, s') →
      manifestSizeInvariant s') ∧
    manifestSizeInvariant (deleteSong env songId s0).2 ∧
    manifestSizeInvariant (clearAllDownloads env s0).2 := by
  refine ⟨?_, ?_, deleteSong_wf hwf, ?_⟩
  · intro r s' evs w hok
    cases song with
    | none =>
        simp only [downloadSong] at hok
        cases cb
        · simp only [Bool.false_eq_true, if_false, Except.ok.injEq, Prod.mk.injEq] at hok
          obtain ⟨-, h2, -, -⟩ := hok
          rw [← h2]
          exact hwf
        · simp at hok
    | some sg =>
        cases r with
        | some d =>
            have hb := downloadSong_some_to_body hok
            rcases body_ok_spec hb with ⟨-, -, hse, -, -⟩ | ⟨-, d', -, -, hinv, hman, -⟩
            · rw [hse]
              exact hwf
            · intro x hx
              unfold getDownloadedSongs at hx
              rw [hman] at hx
              simp only [Option.getD_some] at hx
              rcases List.mem_append.mp hx with hx | hx
              · exact hwf x hx
              · rw [List.mem_singleton.mp hx]
                exact hinv
        | none =>
            obtain ⟨e, sE, evs0, hb, hs1, -⟩ := downloadSong_none_spec hok
            obtain ⟨hm, -, -, -, -⟩ := body_error_spec hb
            subst hs1
            exact manifestSizeInvariant_of_eq
              (by rw [(runCleanup_manifest env w sE).1, hm]) hwf
  · intro e s' herr
    cases song with
    | some sg =>
        simp only [downloadSong] at herr
        cases hb : downloadSongBody env cb sg opts s0 with
        | ok rr =>
            rw [hb] at herr
            simp at herr
        | error err =>
            obtain ⟨e1, sE, w1, evs1⟩ := err
            rw [hb] at herr
            cases cb <;> simp at herr
    | none =>
        simp only [downloadSong] at herr
        cases cb
        · simp at herr
        · simp only [if_true, Except.error.injEq, Prod.mk.injEq] at herr
          obtain ⟨-, h2⟩ := herr
          rw [← h2]
          exact hwf
  · have hfold := foldl_deleteSong_wf env (getDownloadedSongs s0) s0 hwf
    cases hres : trySetManifest env
        ((getDownloadedSongs s0).foldl (fun st sg => (deleteSong env sg.id st).2) s0) [] with
    | mk b s4 =>
        have hcl : (clearAllDownloads env s0).2 = s4 := by
          unfold clearAllDownloads
          rw [hres]
        rw [hcl]
        cases b
        · obtain ⟨-, hs4⟩ := trySetManifest_false_spec hres
          subst hs4
          exact manifestSizeInvariant_of_eq rfl hfold
        · obtain ⟨-, hs4⟩ := trySetManifest_true_spec hres
          subst hs4
          intro x hx
          unfold getDownloadedSongs at hx
          simp at hx

/-- Witness for claim C4: the invariant trivially holds in the empty state
    and is preserved by a deleteSong call there. -/
theorem totalSize_invariant_witness :
    manifestSizeInvariant (deleteSong exEnv "a" exState).2 :=
  (totalSize_invariant exEnv false none {} exState "a"
    (fun d hd => absurd hd (by simp [getDownloadedSongs, exState]))).2.2.1

/-- Claim C5, counterexample: the entry for id a is present and the manifest
    write would succeed, but the lyrics file delete fails; deleteSong returns
    false and the manifest entry is NOT removed — the claim stated that
    file-deletion errors are swallowed and never prevent the manifest
    removal. -/
theorem deleteSong_cex :
    getDownloadedSong "a" stateA = some entryA ∧
    failDelEnv.deleteOk "p" = false ∧
    failDelEnv.writeOk stateA.writeCount = true ∧
    deleteSong failDelEnv "a" stateA = (false, stateA) :=
  ⟨rfl, rfl, rfl, rfl⟩

/-- Claim C5 (amended): deleteSong returns false when no manifest entry
    exists; with an entry present it deletes the artifact files in order and
    removes the manifest entry, returning true when every file deletion and
    the manifest write succeed; a file-deletion error is caught by the
    surrounding handler and makes deleteSong return false with the manifest
    unchanged (the entry is not removed). -/
theorem deleteSong_spec (env : Env) (songId : String) (s : State) :
    (getDownloadedSong songId s = none → deleteSong env songId s = (false, s)) ∧
    (∀ d, getDownloadedSong songId s = some d →
      (((∀ a, d.lyrics = some a → env.deleteOk a.localUri = true) →
        (∀ a, d.audio = some a → env.deleteOk a.localUri = true) →
        (∀ a, d.nota = some a → env.deleteOk a.localUri = true) →
        env.writeOk s.writeCount = true →
          (deleteSong env songId s).1 = true ∧
          (deleteSong env songId s).2.manifest =
            some ((getDownloadedSongs s).filter (fun x => !(x.id == songId))) ∧
          getDownloadedSong songId (deleteSong env songId s).2 = none) ∧
       (((∃ a, d.lyrics = some a ∧ env.deleteOk a.localUri = false) ∨
         ((∀ a, d.lyrics = some a → env.deleteOk a.localUri = true) ∧
           ∃ a, d.audio = some a ∧ env.deleteOk a.localUri = false) ∨
         ((∀ a, d.lyrics = some a → env.deleteOk a.localUri = true) ∧
           (∀ a, d.audio = some a → env.deleteOk a.localUri = true) ∧
           ∃ a, d.nota = some a ∧ env.deleteOk a.localUri = false)) →
          (deleteSong env songId s).1 = false ∧
          (deleteSong env songId s).2.manifest = s.manifest))) := by
  constructor
  · intro h
    simp [deleteSong, h]
  · intro d hd
    constructor
    · intro hl ha hn hw
      obtain ⟨s1, h1⟩ := @deleteArtifact_ok_of env s d.lyrics hl
      obtain ⟨hm1, -, hwc1⟩ := deleteArtifact_ok_spec h1
      obtain ⟨s2, h2⟩ := @deleteArtifact_ok_of env s1 d.audio ha
      obtain ⟨hm2, -, hwc2⟩ := deleteArtifact_ok_spec h2
      obtain ⟨s3, h3⟩ := @deleteArtifact_ok_of env s2 d.nota hn
      obtain ⟨hm3, -, hwc3⟩ := deleteArtifact_ok_spec h3
      have hgs : getDownloadedSongs s3 = getDownloadedSongs s := by
        apply getDownloadedSongs_eq_of_manifest
        rw [hm3, hm2, hm1]
      have hres : deleteSong env songId s =
          trySetManifest env s3
            ((getDownloadedSongs s3).filter (fun x => !(x.id == songId))) := by
        simp [deleteSong, hd, h1, h2, h3]
      have hwc : s3.writeCount = s.writeCount := by rw [hwc3, hwc2, hwc1]
      cases hw4 : trySetManifest env s3
          ((getDownloadedSongs s3).filter (fun x => !(x.id == songId))) with
      | mk b s4 =>
        cases b
        · obtain ⟨hwk, -⟩ := trySetManifest_false_spec hw4
          rw [hwc, hw] at hwk
          cases hwk
        · obtain ⟨-, hs4⟩ := trySetManifest_true_spec hw4
          rw [hres, hw4]
          subst hs4
          refine ⟨rfl, by rw [hgs], ?_⟩
          unfold getDownloadedSong getDownloadedSongs
          simp only [Option.getD_some]
          rw [List.find?_eq_none]
          intro x hx
          have hxm := (List.mem_filter.mp hx).2
          simp only [Bool.not_eq_eq_eq_not, Bool.not_true] at hxm
          simp [hxm]
    · intro hfail
      rcases hfail with ⟨a, hla, hdel⟩ | ⟨hl, a, haa, hdel⟩ | ⟨hl, ha, a, hna, hdel⟩
      · have h1 : deleteArtifact env s d.lyrics = .error s := by
          rw [hla]
          unfold deleteArtifact
          simp [hdel]
        have hres : deleteSong env songId s = (false, s) := by
          simp [deleteSong, hd, h1]
        rw [hres]
        exact ⟨rfl, rfl⟩
      · obtain ⟨s1, h1⟩ := @deleteArtifact_ok_of env s d.lyrics hl
        obtain ⟨hm1, -, -⟩ := deleteArtifact_ok_spec h1
        have h2 : deleteArtifact env s1 d.audio = .error s1 := by
          rw [haa]
          unfold deleteArtifact
          simp [hdel]
        have hres : deleteSong env songId s = (false, s1) := by
          simp [deleteSong, hd, h1, h2]
        rw [hres]
        exact ⟨rfl, hm1⟩
      · obtain ⟨s1, h1⟩ := @deleteArtifact_ok_of env s d.lyrics hl
        obtain ⟨hm1, -, -⟩ := deleteArtifact_ok_spec h1
        obtain ⟨s2, h2⟩ := @deleteArtifact_ok_of env s1 d.audio ha
        obtain ⟨hm2, -, -⟩ := deleteArtifact_ok_spec h2
        have h3 : deleteArtifact env s2 d.nota = .error s2 := by
          rw [hna]
          unfold deleteArtifact
          simp [hdel]
        have hres : deleteSong env songId s = (false, s2) := by
          simp [deleteSong, hd, h1, h2, h3]
        rw [hres]
        exact ⟨rfl, by rw [hm2, hm1]⟩

/-- Witness for the amended claim C5: deleting the present entry with all
    file deletions and the manifest write succeeding returns true and removes
    the entry. -/
theorem deleteSong_spec_witness :
    (deleteSong exEnv "a" stateA).1 = true ∧
    (deleteSong exEnv "a" stateA).2.manifest =
      some ((getDownloadedSongs stateA).filter (fun x => !(x.id == "a"))) ∧
    getDownloadedSong "a" (deleteSong exEnv "a" stateA).2 = none :=
  (((deleteSong_spec exEnv "a" stateA).2 entryA (by rfl)).1
    (fun a _ => rfl) (fun a _ => rfl) (fun a _ => rfl) rfl)

end Hymn
